import Mathlib

/-!
Shallow embedding of the kilo-style text editor in `src/main.rs`
(joshuabrownenz/rust-text-editor).

Strings are modelled as `List Char` (the editor only manipulates ASCII
content in the claims considered, where Rust's byte length and char count
coincide).  Terminal, file-system and timing effects are made explicit:
the key decoder consumes a list of input bytes, saving takes the outcome
of the file-system calls as a parameter, and `process::exit` / panics are
modelled by dedicated result constructors.  Rust indexing panics cannot
occur at the states the theorems below evaluate; reads use default-valued
`getD` at those (in-bounds) indices.
-/

/-! ### Constants (src/main.rs lines 14-31) -/

def KILO_VERSION : String := "0.0.1"

def KILO_TAB_STOP : Nat := 8

def KILO_MESSAGE_BAR_HEIGHT : Nat := 2

def KILO_QUIT_TIMES : Nat := 3

def CARRIAGE_RETURN_KEY : Nat := 13

def BACKSPACE_KEY : Nat := 127

def ARROW_LEFT_KEY : Nat := 1000

def ARROW_RIGHT_KEY : Nat := 1001

def ARROW_UP_KEY : Nat := 1002

def ARROW_DOWN_KEY : Nat := 1003

def PAGE_UP_KEY : Nat := 1004

def PAGE_DOWN_KEY : Nat := 1005

def HOME_KEY : Nat := 1006

def END_KEY : Nat := 1007

def DELETE_KEY : Nat := 1008

def ESCAPE_KEY : Nat := Char.toNat '\x1b'

/-! ### EditorRow (src/main.rs lines 33-114) -/

/-- Tab expansion of `EditorRow::update_render`: a tab emits one space and
then pads with spaces until the running index is a multiple of
`KILO_TAB_STOP`. -/
def render_chars : List Char → Nat → List Char
  | [], _ => []
  | c :: cs, index =>
    if c = '\t' then
      let pad := KILO_TAB_STOP - index % KILO_TAB_STOP
      List.replicate pad ' ' ++ render_chars cs (index + pad)
    else
      c :: render_chars cs (index + 1)

structure EditorRow where
  chars : List Char
  render : List Char
deriving DecidableEq, Inhabited

def EditorRow.update_render (r : EditorRow) : EditorRow :=
  { r with render := render_chars r.chars 0 }

def EditorRow.new (chars : List Char) : EditorRow :=
  EditorRow.update_render { chars := chars, render := [] }

def EditorRow.len (r : EditorRow) : Nat :=
  r.chars.length

/-- Loop body of `EditorRow::cursor_x_to_render_cursor_x`, iterating over the
first `cursor_x` characters with accumulator `rx`. -/
def cx_to_rx_go : List Char → Nat → Nat → Nat
  | _, 0, rx => rx
  | [], _ + 1, rx => rx
  | c :: cs, n + 1, rx =>
    if c = '\t' then
      cx_to_rx_go cs n (rx + (KILO_TAB_STOP - 1 - rx % KILO_TAB_STOP) + 1)
    else
      cx_to_rx_go cs n (rx + 1)

def EditorRow.cursor_x_to_render_cursor_x (r : EditorRow) (cursor_x : Nat) : Nat :=
  cx_to_rx_go r.chars cursor_x 0

def EditorRow.insert_char (r : EditorRow) (at_ : Nat) (c : Char) : EditorRow :=
  EditorRow.update_render { r with chars := List.insertIdx at_ c r.chars }

def EditorRow.delete_char (r : EditorRow) (at_ : Nat) : EditorRow :=
  EditorRow.update_render { r with chars := r.chars.eraseIdx at_ }

def EditorRow.append_string (r : EditorRow) (s : List Char) : EditorRow :=
  EditorRow.update_render { r with chars := r.chars ++ s }

/-! ### Editor state (src/main.rs lines 137-203)

`status_message_time` (wall-clock) and the saved termios are irrelevant to
the claims and omitted; everything else is carried. -/

structure Editor where
  cursor_x : Nat
  cursor_y : Nat
  render_cursor_x : Nat
  row_offset : Nat
  column_offset : Nat
  screen_num_rows : Nat
  screen_num_columns : Nat
  rows : List EditorRow
  dirty : Nat
  quit_times : Nat
  filename : Option (List Char)
  status_message : Option (List Char)
deriving DecidableEq, Inhabited

def initial_editor : Editor :=
  { cursor_x := 0
    cursor_y := 0
    render_cursor_x := 0
    row_offset := 0
    column_offset := 0
    screen_num_rows := 0
    screen_num_columns := 0
    rows := []
    dirty := 0
    quit_times := KILO_QUIT_TIMES
    filename := none
    status_message := none }

/-- `Editor::get_dimensions`, with the terminal size supplied explicitly. -/
def get_dimensions (num_columns num_rows : Nat) (e : Editor) : Editor :=
  { e with
    screen_num_rows := num_rows - KILO_MESSAGE_BAR_HEIGHT
    screen_num_columns := num_columns }

/-- `Editor::new` on a terminal of the given size. -/
def editor_new (num_columns num_rows : Nat) : Editor :=
  get_dimensions num_columns num_rows initial_editor

def get_num_rows (e : Editor) : Nat :=
  e.rows.length

def editor_insert_row (at_ : Nat) (row : List Char) (e : Editor) : Editor :=
  if at_ > get_num_rows e then e
  else
    { e with
      rows := List.insertIdx at_ (EditorRow.new row) e.rows
      dirty := e.dirty + 1 }

def editor_set_status_message (message : List Char) (e : Editor) : Editor :=
  { e with status_message := some message }

def ctrl_char (k : Char) : Nat :=
  (k.toNat % 256) &&& 0x1f

/-! ### Scrolling (src/main.rs lines 313-337) -/

def editor_scroll (e : Editor) : Editor :=
  let rcx :=
    if e.cursor_y < get_num_rows e then
      (e.rows.getD e.cursor_y default).cursor_x_to_render_cursor_x e.cursor_x
    else 0
  let ro1 := if e.cursor_y < e.row_offset then e.cursor_y else e.row_offset
  let ro2 :=
    if e.cursor_y ≥ ro1 + e.screen_num_rows then
      e.cursor_y - e.screen_num_rows + 1
    else ro1
  let co1 := if rcx < e.column_offset then rcx else e.column_offset
  let co2 :=
    if rcx ≥ co1 + e.screen_num_columns then
      rcx - e.screen_num_columns + 1
    else co1
  { e with render_cursor_x := rcx, row_offset := ro2, column_offset := co2 }

/-! ### Drawing (src/main.rs lines 340-391), text content of each screen row -/

def welcome_message (num_columns : Nat) : List Char :=
  (("Kilo editor -- version " ++ KILO_VERSION).toList).take num_columns

def editor_draw_row (e : Editor) (y : Nat) : List Char :=
  let file_row := y + e.row_offset
  if file_row ≥ get_num_rows e then
    if get_num_rows e = 0 ∧ y = e.screen_num_rows / 3 then
      let welcome := welcome_message e.screen_num_columns
      let padding := (e.screen_num_columns - welcome.length) / 2
      (if padding > 0 then '~' :: List.replicate (padding - 1) ' ' else []) ++ welcome
    else ['~']
  else
    (((e.rows.getD file_row default).render).drop e.column_offset).take e.screen_num_columns

def editor_draw_rows (e : Editor) : List (List Char) :=
  (List.range e.screen_num_rows).map (editor_draw_row e)

/-! ### File I/O (src/main.rs lines 427-501) -/

/-- The length-trimming loop in `editor_open`: drop trailing newline or
carriage-return bytes from the end of a line. -/
def strip_trailing_newlines (l : List Char) : List Char :=
  ((l.reverse).dropWhile (fun c => c == '\n' || c == '\r')).reverse

/-- `Editor::editor_open` once the file contents are in hand (a missing file
reads as the empty string in the source). -/
def editor_open (filename : List Char) (contents : List Char) (e : Editor) : Editor :=
  let e :=
    (contents.splitOn '\n').foldl
      (fun acc line => editor_insert_row (get_num_rows acc) (strip_trailing_newlines line) acc) e
  { e with filename := some filename, dirty := 0 }

/-- Loop body of `Editor::editor_rows_to_string`: `idx` is the enumeration
index, `rows_len` the total row count; a newline separates all but the last
row. -/
def rows_to_string_go (rows_len : Nat) : Nat → List EditorRow → List Char
  | _, [] => []
  | idx, r :: rs =>
    r.chars ++ (if idx < rows_len - 1 then ['\n'] else []) ++ rows_to_string_go rows_len (idx + 1) rs

def editor_rows_to_string (e : Editor) : List Char :=
  rows_to_string_go (e.rows.length) 0 e.rows

/-- Outcome of the `OpenOptions::open` / `write_all` calls in `editor_save`,
passed in explicitly. -/
inductive FSOutcome where
  | ok : FSOutcome
  | open_error : List Char → FSOutcome
  | write_error : List Char → FSOutcome
deriving DecidableEq

/-- `Editor::editor_save`.  The source sets the "No file open to save"
status when `filename` is `None` but does not return, and then calls
`self.filename.as_ref().unwrap()`; the `unwrap` panic is modelled as
`none`. -/
def editor_save (fs : FSOutcome) (e : Editor) : Option Editor :=
  let e :=
    if e.filename = none then
      editor_set_status_message ("No file open to save".toList) e
    else e
  let buf := editor_rows_to_string e
  let num_new_lines := (buf.filter (fun c => c == '\n')).length
  match e.filename with
  | none => none
  | some _ =>
    match fs with
    | FSOutcome.ok =>
      some
        { editor_set_status_message
            ((toString buf.length).toList ++ " bytes written to disk ".toList
              ++ (toString num_new_lines).toList) e with
          dirty := 0 }
    | FSOutcome.open_error m =>
      some (editor_set_status_message ("Error opening file: ".toList ++ m) e)
    | FSOutcome.write_error m =>
      some (editor_set_status_message ("Error saving file: ".toList ++ m) e)

/-! ### Editor operations (src/main.rs lines 504-561) -/

def editor_insert_char (c : Char) (e : Editor) : Editor :=
  let e :=
    if e.cursor_y = get_num_rows e then
      editor_insert_row (get_num_rows e) [] e
    else e
  { e with
    rows := e.rows.set e.cursor_y ((e.rows.getD e.cursor_y default).insert_char e.cursor_x c)
    cursor_x := e.cursor_x + 1
    dirty := e.dirty + 1 }

def editor_insert_newline (e : Editor) : Editor :=
  let e :=
    if e.cursor_x = 0 then
      editor_insert_row e.cursor_y [] e
    else
      let row := e.rows.getD e.cursor_y default
      let new_row := row.chars.drop e.cursor_x
      let e :=
        { e with
          rows := e.rows.set e.cursor_y
            (EditorRow.update_render { row with chars := row.chars.take e.cursor_x }) }
      let e := editor_insert_row (e.cursor_y + 1) new_row e
      { e with dirty := e.dirty + 1 }
  { e with cursor_y := e.cursor_y + 1, cursor_x := 0 }

def editor_delete_row (at_ : Nat) (e : Editor) : Editor × Option EditorRow :=
  if at_ ≥ get_num_rows e then (e, none)
  else
    ({ e with dirty := e.dirty + 1, rows := e.rows.eraseIdx at_ },
      some (e.rows.getD at_ default))

/-- `Editor::editor_delete_char`.  Note the first guard compares `cursor_y`
with `screen_num_rows` (the screen height), exactly as the source does. -/
def editor_delete_char (e : Editor) : Editor :=
  if e.cursor_y = e.screen_num_rows then e
  else if e.cursor_x = 0 ∧ e.cursor_y = 0 then e
  else if e.cursor_x > 0 then
    { e with
      rows := e.rows.set e.cursor_y ((e.rows.getD e.cursor_y default).delete_char (e.cursor_x - 1))
      cursor_x := e.cursor_x - 1
      dirty := e.dirty + 1 }
  else
    let e := { e with cursor_x := (e.rows.getD (e.cursor_y - 1) default).len }
    let pair := editor_delete_row e.cursor_y e
    let e :=
      match pair with
      | (e, some row) =>
        { e with
          rows := e.rows.set (e.cursor_y - 1)
            ((e.rows.getD (e.cursor_y - 1) default).append_string row.chars) }
      | (e, none) => e
    { e with cursor_y := e.cursor_y - 1 }

/-! ### Key decoding (src/main.rs lines 565-641) -/

/-- Decoding after an initial escape byte: each failed `read_exact` (list
exhausted) is the VTIME timeout and yields the escape key. -/
def read_escape_sequence : List Nat → Nat
  | [] => ESCAPE_KEY
  | [_] => ESCAPE_KEY
  | s0 :: s1 :: rest =>
    if s0 = Char.toNat '[' then
      if Char.toNat '0' < s1 ∧ s1 ≤ Char.toNat '9' then
        match rest with
        | [] => ESCAPE_KEY
        | s2 :: _ =>
          if s2 = Char.toNat '~' then
            if s1 = Char.toNat '1' then HOME_KEY
            else if s1 = Char.toNat '3' then DELETE_KEY
            else if s1 = Char.toNat '4' then END_KEY
            else if s1 = Char.toNat '5' then PAGE_UP_KEY
            else if s1 = Char.toNat '6' then PAGE_DOWN_KEY
            else if s1 = Char.toNat '7' then HOME_KEY
            else if s1 = Char.toNat '8' then END_KEY
            else ESCAPE_KEY
          else ESCAPE_KEY
      else
        if s1 = Char.toNat 'A' then ARROW_UP_KEY
        else if s1 = Char.toNat 'B' then ARROW_DOWN_KEY
        else if s1 = Char.toNat 'C' then ARROW_RIGHT_KEY
        else if s1 = Char.toNat 'D' then ARROW_LEFT_KEY
        else if s1 = Char.toNat 'H' then HOME_KEY
        else if s1 = Char.toNat 'F' then END_KEY
        else ESCAPE_KEY
    else if s0 = Char.toNat 'O' then
      if s1 = Char.toNat 'H' then HOME_KEY
      else if s1 = Char.toNat 'F' then END_KEY
      else ESCAPE_KEY
    else ESCAPE_KEY

/-- `Editor::editor_read_key` on an explicit byte stream; `none` models the
initial read loop blocking forever on an empty stream. -/
def editor_read_key : List Nat → Option Nat
  | [] => none
  | b :: rest => some (if b = ESCAPE_KEY then read_escape_sequence rest else b)

/-! ### Cursor movement and keypress dispatch (src/main.rs lines 643-763) -/

def editor_move_cursor (key : Nat) (e : Editor) : Editor :=
  let on_row := e.cursor_y < get_num_rows e
  let e :=
    if key = ARROW_LEFT_KEY then
      if e.cursor_x ≠ 0 then { e with cursor_x := e.cursor_x - 1 }
      else if e.cursor_y > 0 then
        { e with
          cursor_y := e.cursor_y - 1
          cursor_x := (e.rows.getD (e.cursor_y - 1) default).render.length }
      else e
    else if key = ARROW_RIGHT_KEY then
      if on_row ∧ e.cursor_x < (e.rows.getD e.cursor_y default).render.length then
        { e with cursor_x := e.cursor_x + 1 }
      else if on_row ∧ e.cursor_x = (e.rows.getD e.cursor_y default).render.length then
        { e with cursor_y := e.cursor_y + 1, cursor_x := 0 }
      else e
    else if key = ARROW_UP_KEY then
      { e with cursor_y := e.cursor_y - 1 }
    else if key = ARROW_DOWN_KEY then
      if e.cursor_y < get_num_rows e then { e with cursor_y := e.cursor_y + 1 } else e
    else e
  let current_row_len :=
    if e.cursor_y < get_num_rows e then (e.rows.getD e.cursor_y default).render.length else 0
  if e.cursor_x > current_row_len then { e with cursor_x := current_row_len } else e

def move_cursor_times (key : Nat) : Nat → Editor → Editor
  | 0, e => e
  | n + 1, e => move_cursor_times key n (editor_move_cursor key e)

/-- The PageUp / PageDown arm of the keypress dispatcher. -/
def editor_page_move (key : Nat) (e : Editor) : Editor :=
  let e :=
    if key = PAGE_UP_KEY then { e with cursor_y := e.row_offset }
    else if key = PAGE_DOWN_KEY then
      let cy := e.row_offset + e.screen_num_rows - 1
      { e with cursor_y := if cy > get_num_rows e then get_num_rows e else cy }
    else e
  move_cursor_times (if key = PAGE_UP_KEY then ARROW_UP_KEY else ARROW_DOWN_KEY)
    e.screen_num_rows e

def quit_warning (n : Nat) : List Char :=
  "WARNING!!! File has unsaved changes. Press Ctrl-Q ".toList
    ++ (toString n).toList ++ " more times to quit.".toList

/-- Every arm of `editor_process_keypress` other than control-Q; `none`
propagates the `unwrap` panic of `editor_save`. -/
def editor_handle_key (fs : FSOutcome) (key : Nat) (e : Editor) : Option Editor :=
  if key = ctrl_char 's' then editor_save fs e
  else
    some
      (if key = CARRIAGE_RETURN_KEY then editor_insert_newline e
      else if key = ARROW_LEFT_KEY ∨ key = ARROW_RIGHT_KEY
          ∨ key = ARROW_UP_KEY ∨ key = ARROW_DOWN_KEY then
        editor_move_cursor key e
      else if key = PAGE_DOWN_KEY ∨ key = PAGE_UP_KEY then editor_page_move key e
      else if key = HOME_KEY then { e with cursor_x := 0 }
      else if key = END_KEY then
        if e.cursor_y < get_num_rows e then
          { e with cursor_x := (e.rows.getD e.cursor_y default).len }
        else e
      else if key = BACKSPACE_KEY ∨ key = DELETE_KEY then
        editor_delete_char (if key = DELETE_KEY then editor_move_cursor ARROW_RIGHT_KEY e else e)
      else if key = ctrl_char 'h' then editor_delete_char e
      else if key = ESCAPE_KEY then e
      else if key = ctrl_char 'l' then e
      else if (key < 128 ∧ key % 256 < 128) ∨ key = Char.toNat '\t' then
        editor_insert_char (Char.ofNat (key % 256)) e
      else e)

/-- Result of one keypress: still running with a new state, exited via
`process::exit`, or panicked. -/
inductive StepResult where
  | running : Editor → StepResult
  | exited : StepResult
  | panicked : StepResult
deriving DecidableEq

/-- `Editor::editor_process_keypress` for an already-decoded key.  The
control-Q warning arm returns early, skipping the final `quit_times`
reset; every other arm falls through to it. -/
def editor_process_keypress (fs : FSOutcome) (key : Nat) (e : Editor) : StepResult :=
  if key = ctrl_char 'q' then
    if e.dirty ≠ 0 ∧ e.quit_times > 0 then
      StepResult.running
        { editor_set_status_message (quit_warning e.quit_times) e with
          quit_times := e.quit_times - 1 }
    else StepResult.exited
  else
    match editor_handle_key fs key e with
    | none => StepResult.panicked
    | some e => StepResult.running { e with quit_times := KILO_QUIT_TIMES }

/-- Repeated control-Q presses, stopping at exit or panic. -/
def press_ctrl_q_times : Nat → Editor → StepResult
  | 0, e => StepResult.running e
  | n + 1, e =>
    match editor_process_keypress FSOutcome.ok (ctrl_char 'q') e with
    | StepResult.running e => press_ctrl_q_times n e
    | r => r

/-! ### Concrete states used in the theorems below -/

/-- Two-row document whose first row is a single tab, cursor at the start of
the second row; terminal 80x24. -/
def arrow_left_state : Editor :=
  { editor_new 80 24 with
    rows := [EditorRow.new ['\t'], EditorRow.new ['x']]
    cursor_x := 0
    cursor_y := 1 }

/-- Two-row document on a 3-line terminal (one text row), cursor at the start
of the second row, so `cursor_y` equals `screen_num_rows`. -/
def backspace_state : Editor :=
  { editor_new 80 3 with
    rows := [EditorRow.new ['a', 'b'], EditorRow.new ['c', 'd']]
    cursor_x := 0
    cursor_y := 1 }

/-- Dirty document on a fresh editor: quit counter at its initial value. -/
def dirty_state : Editor :=
  { editor_new 80 24 with dirty := 1 }

/-- Two-row document used to exercise the serialize / load round trip. -/
def round_trip_state : Editor :=
  { editor_new 80 24 with
    rows := [EditorRow.new ['a', 'b'], EditorRow.new ['c']] }

/-! ### Claim theorems -/

/-- C1: the spec claims `0 <= cursor_x <= chars.length` after every cursor
operation, and that ArrowLeft at column 0 moves to the chars length of the
previous row.  The code instead uses the render length: ArrowLeft from
`(0, 1)` over a previous row `"\t"` (chars length 1, render length 8) lands
at `cursor_x = 8 > 1`, violating the claimed invariant. -/
theorem C1_arrow_left_uses_render_length :
    (editor_move_cursor ARROW_LEFT_KEY arrow_left_state).cursor_y = 0
    ∧ (editor_move_cursor ARROW_LEFT_KEY arrow_left_state).cursor_x = 8
    ∧ (arrow_left_state.rows.getD 0 default).chars.length = 1
    ∧ ¬((editor_move_cursor ARROW_LEFT_KEY arrow_left_state).cursor_x
        ≤ ((editor_move_cursor ARROW_LEFT_KEY arrow_left_state).rows.getD
            (editor_move_cursor ARROW_LEFT_KEY arrow_left_state).cursor_y
            default).chars.length) := by
  decide

/-- C2: whenever no filename is recorded, `editor_save` sets the error
status message but then falls through to `filename.unwrap()`, which panics
(modelled as `none`) instead of leaving the session running. -/
theorem C2_save_without_filename_panics (fs : FSOutcome) (e : Editor)
    (h : e.filename = none) : editor_save fs e = none := by
  simp [editor_save, editor_set_status_message, h]

/-- C2 witness: a fresh editor has no filename and control-S save panics. -/
theorem C2_save_without_filename_panics_witness :
    (editor_new 80 24).filename = none
    ∧ editor_save FSOutcome.ok (editor_new 80 24) = none :=
  ⟨rfl, C2_save_without_filename_panics FSOutcome.ok (editor_new 80 24) rfl⟩

/-- C3: the claim says Backspace at `(0, y)` with `0 < y < row_count` joins
row `y` into row `y-1` for every such `y`, including `y` equal to the screen
row count.  The code's first guard compares `cursor_y` with
`screen_num_rows` and returns, so at `y = screen_num_rows` (here 1, on a
3-line terminal with a 2-row document) nothing changes. -/
theorem C3_backspace_noop_at_screen_height :
    backspace_state.cursor_x = 0
    ∧ 0 < backspace_state.cursor_y
    ∧ backspace_state.cursor_y < backspace_state.rows.length
    ∧ backspace_state.cursor_y = backspace_state.screen_num_rows
    ∧ editor_delete_char backspace_state = backspace_state := by
  decide

/-- C6 counterexample: the claim says ESC `'O'` uses the same next-byte
table as ESC `'['`, so `[0x1b, 'O', 'A']` should decode to Arrow-Up; the
code decodes it to the Escape key. -/
theorem C6_counterexample_ss3_arrow :
    editor_read_key [ESCAPE_KEY, Char.toNat 'O', Char.toNat 'A'] = some ESCAPE_KEY
    ∧ ESCAPE_KEY ≠ ARROW_UP_KEY := by
  decide

/-- C6 amended: after ESC `'O'` the decoder recognises only `'H'` (Home) and
`'F'` (End); the arrow letters `'A'`-`'D'` all fall through to Escape. -/
theorem C6_ss3_only_home_end :
    editor_read_key [ESCAPE_KEY, Char.toNat 'O', Char.toNat 'H'] = some HOME_KEY
    ∧ editor_read_key [ESCAPE_KEY, Char.toNat 'O', Char.toNat 'F'] = some END_KEY
    ∧ editor_read_key [ESCAPE_KEY, Char.toNat 'O', Char.toNat 'A'] = some ESCAPE_KEY
    ∧ editor_read_key [ESCAPE_KEY, Char.toNat 'O', Char.toNat 'B'] = some ESCAPE_KEY
    ∧ editor_read_key [ESCAPE_KEY, Char.toNat 'O', Char.toNat 'C'] = some ESCAPE_KEY
    ∧ editor_read_key [ESCAPE_KEY, Char.toNat 'O', Char.toNat 'D'] = some ESCAPE_KEY := by
  decide

/-- C8: `[0x1b, '[', 'C']` decodes to ArrowRight, `[0x1b, '[', '3', '~']`
to Delete, and a lone `0x1b` with the subsequent reads timing out decodes to
Escape. -/
theorem C8_decoder_scenarios :
    editor_read_key [ESCAPE_KEY, Char.toNat '[', Char.toNat 'C'] = some ARROW_RIGHT_KEY
    ∧ editor_read_key [ESCAPE_KEY, Char.toNat '[', Char.toNat '3', Char.toNat '~']
        = some DELETE_KEY
    ∧ editor_read_key [ESCAPE_KEY] = some ESCAPE_KEY := by
  decide

/-- C9: on an 80x24 terminal (22 text rows after the status and message
bars) with an empty document, the frame has 22 text rows; the 8th screen row
(index 7 = 22 / 3) carries the centered welcome banner behind the filler
marker, and every other row is a single `'~'`. -/
theorem C9_welcome_banner_row :
    (editor_draw_rows (editor_new 80 24)).length = 22
    ∧ (editor_draw_rows (editor_new 80 24)).getD 7 []
        = '~' :: (List.replicate 25 ' ' ++ welcome_message 80)
    ∧ ∀ y, y < 22 → y ≠ 7 → (editor_draw_rows (editor_new 80 24)).getD y [] = ['~'] := by
  decide

/-- C10: loading empty file contents yields exactly one empty row; a
zero-row document serializes to the empty string, and loading that string
does not give back a zero-row document. -/
theorem C10_empty_contents_single_empty_row :
    (editor_open ['t'] [] (editor_new 80 24)).rows.map EditorRow.chars = [[]]
    ∧ editor_rows_to_string (editor_new 80 24) = []
    ∧ (editor_open ['t'] (editor_rows_to_string (editor_new 80 24)) (editor_new 80 24)).rows
        ≠ [] := by
  decide

/-- C7: after `editor_scroll`, the cursor row lies inside the vertical
viewport and the render cursor column inside the horizontal viewport, for
arbitrary pre-call offsets and cursor position, whenever both screen
dimensions are positive. -/
theorem C7_scroll_viewport_invariant (e : Editor)
    (hr : 0 < e.screen_num_rows) (hc : 0 < e.screen_num_columns) :
    (editor_scroll e).row_offset ≤ (editor_scroll e).cursor_y
    ∧ (editor_scroll e).cursor_y
        < (editor_scroll e).row_offset + (editor_scroll e).screen_num_rows
    ∧ (editor_scroll e).column_offset ≤ (editor_scroll e).render_cursor_x
    ∧ (editor_scroll e).render_cursor_x
        < (editor_scroll e).column_offset + (editor_scroll e).screen_num_columns := by
  unfold editor_scroll
  dsimp only
  split_ifs <;> refine ⟨?_, ?_, ?_, ?_⟩ <;> omega

/-- C7 witness: the invariant at a concrete state with stale offsets. -/
theorem C7_scroll_viewport_invariant_witness :
    0 < (editor_scroll { dirty_state with row_offset := 40, column_offset := 120 }).screen_num_rows
    ∧ 0 < { dirty_state with row_offset := 40, column_offset := 120 }.screen_num_rows
    ∧ 0 < { dirty_state with row_offset := 40, column_offset := 120 }.screen_num_columns
    ∧ ((editor_scroll { dirty_state with row_offset := 40, column_offset := 120 }).row_offset
        ≤ (editor_scroll { dirty_state with row_offset := 40, column_offset := 120 }).cursor_y
      ∧ (editor_scroll { dirty_state with row_offset := 40, column_offset := 120 }).cursor_y
          < (editor_scroll { dirty_state with row_offset := 40, column_offset := 120 }).row_offset
            + (editor_scroll { dirty_state with row_offset := 40, column_offset := 120 }).screen_num_rows
      ∧ (editor_scroll { dirty_state with row_offset := 40, column_offset := 120 }).column_offset
          ≤ (editor_scroll { dirty_state with row_offset := 40, column_offset := 120 }).render_cursor_x
      ∧ (editor_scroll { dirty_state with row_offset := 40, column_offset := 120 }).render_cursor_x
          < (editor_scroll { dirty_state with row_offset := 40, column_offset := 120 }).column_offset
            + (editor_scroll { dirty_state with row_offset := 40, column_offset := 120 }).screen_num_columns) :=
  ⟨by decide, by decide, by decide,
    C7_scroll_viewport_invariant { dirty_state with row_offset := 40, column_offset := 120 }
      (by decide) (by decide)⟩

/-- C5 counterexample: the claim says the third control-Q press on a dirty
document (counter at 3) terminates the session; on the code the third press
still leaves the session running. -/
theorem C5_counterexample_third_press :
    press_ctrl_q_times 3 dirty_state ≠ StepResult.exited := by
  decide

/-- C5 amended: on a dirty document with the quit counter at its initial
value 3, the first, second and third control-Q presses each leave the
session running (warning shown, counter decremented); the fourth press
terminates it. -/
theorem C5_fourth_press_terminates (e : Editor)
    (hd : e.dirty ≠ 0) (hq : e.quit_times = 3) :
    (∃ e₁, press_ctrl_q_times 1 e = StepResult.running e₁)
    ∧ (∃ e₂, press_ctrl_q_times 2 e = StepResult.running e₂)
    ∧ (∃ e₃, press_ctrl_q_times 3 e = StepResult.running e₃)
    ∧ press_ctrl_q_times 4 e = StepResult.exited := by
  simp [press_ctrl_q_times, editor_process_keypress, editor_set_status_message, hd, hq]

/-- C5 witness: the press chain on a concrete dirty editor. -/
theorem C5_fourth_press_terminates_witness :
    (dirty_state.dirty ≠ 0 ∧ dirty_state.quit_times = 3)
    ∧ ((∃ e₁, press_ctrl_q_times 1 dirty_state = StepResult.running e₁)
      ∧ (∃ e₂, press_ctrl_q_times 2 dirty_state = StepResult.running e₂)
      ∧ (∃ e₃, press_ctrl_q_times 3 dirty_state = StepResult.running e₃)
      ∧ press_ctrl_q_times 4 dirty_state = StepResult.exited) :=
  ⟨⟨by decide, by decide⟩, C5_fourth_press_terminates dirty_state (by decide) (by decide)⟩

theorem intercalate_nil_eq (sep : List Char) : List.intercalate sep [] = [] := by
  simp [List.intercalate]

theorem intercalate_single_eq (sep a : List Char) : List.intercalate sep [a] = a := by
  simp [List.intercalate]

theorem intercalate_cons_cons_eq (sep a b : List Char) (l : List (List Char)) :
    List.intercalate sep (a :: b :: l) = a ++ sep ++ List.intercalate sep (b :: l) := by
  simp [List.intercalate, List.intersperse]

theorem rows_to_string_go_eq :
    ∀ (rs : List EditorRow) (i n : Nat), i + rs.length = n →
      rows_to_string_go n i rs = List.intercalate ['\n'] (rs.map EditorRow.chars)
  | [], i, n, h => by
    simp [rows_to_string_go, intercalate_nil_eq]
  | [r], i, n, h => by
    have h' : i + 1 = n := by simpa using h
    rw [rows_to_string_go, rows_to_string_go]
    rw [if_neg (by omega)]
    simp [intercalate_single_eq]
  | r :: r' :: rs, i, n, h => by
    rw [rows_to_string_go]
    rw [if_pos (by simp at h; omega)]
    rw [rows_to_string_go_eq (r' :: rs) (i + 1) n (by simp at h ⊢; omega)]
    simp only [List.map_cons]
    rw [intercalate_cons_cons_eq]

theorem editor_rows_to_string_eq (e : Editor) :
    editor_rows_to_string e = List.intercalate ['\n'] (e.rows.map EditorRow.chars) :=
  rows_to_string_go_eq e.rows 0 e.rows.length (by simp)

theorem mem_of_getLast_eq_some :
    ∀ (l : List Char) (a : Char), l.getLast? = some a → a ∈ l
  | [], a, h => by simp at h
  | [b], a, h => by
    simp [List.getLast?] at h
    simp [h]
  | b :: c :: t, a, h => by
    rw [List.getLast?_cons_cons] at h
    exact List.mem_cons_of_mem _ (mem_of_getLast_eq_some (c :: t) a h)

theorem strip_trailing_newlines_eq_self (l : List Char)
    (h : ∀ c, l.getLast? = some c → c ≠ '\n' ∧ c ≠ '\r') :
    strip_trailing_newlines l = l := by
  unfold strip_trailing_newlines
  cases hr : l.reverse with
  | nil =>
    have : l = [] := by simpa using congrArg List.reverse hr
    simp [this]
  | cons a t =>
    have hl : l = (a :: t).reverse := by rw [← hr, List.reverse_reverse]
    have ha : l.getLast? = some a := by
      rw [hl, List.reverse_cons, List.getLast?_concat]
    obtain ⟨h1, h2⟩ := h a ha
    rw [List.dropWhile_cons]
    have hp : (a == '\n' || a == '\r') = false := by simp [h1, h2]
    rw [hp]
    simp [hl]

theorem open_fold_rows (lines : List (List Char)) :
    ∀ e : Editor,
      (lines.foldl
        (fun acc line => editor_insert_row (get_num_rows acc) (strip_trailing_newlines line) acc)
        e).rows
      = e.rows ++ lines.map (fun l => EditorRow.new (strip_trailing_newlines l)) := by
  induction lines with
  | nil => intro e; simp
  | cons l ls ih =>
    intro e
    rw [List.foldl_cons, ih]
    simp [editor_insert_row, get_num_rows, List.insertIdx_length_self]

theorem editor_open_rows (fname contents : List Char) (e : Editor) :
    (editor_open fname contents e).rows
      = e.rows ++ (contents.splitOn '\n').map (fun l => EditorRow.new (strip_trailing_newlines l)) := by
  simp [editor_open]
  exact open_fold_rows _ e

theorem editor_open_dirty (fname contents : List Char) (e : Editor) :
    (editor_open fname contents e).dirty = 0 := by
  simp [editor_open]

/-- C4: for a non-empty document none of whose rows contain a newline or
end in a carriage return (and whose renders are consistent with their
chars), loading the serialized text into a fresh editor reproduces exactly
the original rows, with the dirty counter reset to 0. -/
theorem C4_serialize_load_round_trip (fname : List Char) (e e₀ : Editor)
    (h₀ : e₀.rows = [])
    (hne : e.rows ≠ [])
    (hnl : ∀ r ∈ e.rows, '\n' ∉ r.chars)
    (hcr : ∀ r ∈ e.rows, r.chars.getLast? ≠ some '\r')
    (hwf : ∀ r ∈ e.rows, r = EditorRow.new r.chars) :
    (editor_open fname (editor_rows_to_string e) e₀).rows = e.rows
    ∧ (editor_open fname (editor_rows_to_string e) e₀).dirty = 0 := by
  refine ⟨?_, editor_open_dirty _ _ _⟩
  rw [editor_open_rows, h₀, List.nil_append, editor_rows_to_string_eq]
  rw [List.splitOn_intercalate _ '\n'
    (by
      intro l hl
      obtain ⟨r, hr, rfl⟩ := List.mem_map.mp hl
      exact hnl r hr)
    (by simpa using hne)]
  rw [List.map_map]
  have hid : ∀ r ∈ e.rows,
      (fun l => EditorRow.new (strip_trailing_newlines l)) (EditorRow.chars r) = r := by
    intro r hr
    dsimp only
    rw [strip_trailing_newlines_eq_self r.chars
      (by
        intro c hc
        constructor
        · intro hcn
          exact hnl r hr (hcn ▸ mem_of_getLast_eq_some _ _ hc)
        · intro hcr'
          exact hcr r hr (hcr' ▸ hc))]
    exact (hwf r hr).symm
  calc (e.rows.map ((fun l => EditorRow.new (strip_trailing_newlines l)) ∘ EditorRow.chars))
      = e.rows.map id := List.map_congr_left (fun r hr => hid r hr)
    _ = e.rows := List.map_id e.rows

/-- C4 witness: round trip of a concrete two-row document. -/
theorem C4_serialize_load_round_trip_witness :
    ((editor_new 80 24).rows = []
      ∧ round_trip_state.rows ≠ []
      ∧ (∀ r ∈ round_trip_state.rows, '\n' ∉ r.chars)
      ∧ (∀ r ∈ round_trip_state.rows, r.chars.getLast? ≠ some '\r')
      ∧ (∀ r ∈ round_trip_state.rows, r = EditorRow.new r.chars))
    ∧ ((editor_open ['t'] (editor_rows_to_string round_trip_state) (editor_new 80 24)).rows
        = round_trip_state.rows
      ∧ (editor_open ['t'] (editor_rows_to_string round_trip_state) (editor_new 80 24)).dirty
        = 0) :=
  ⟨⟨by decide, by decide, by decide, by decide, by decide⟩,
    C4_serialize_load_round_trip ['t'] round_trip_state (editor_new 80 24)
      (by decide) (by decide) (by decide) (by decide) (by decide)⟩
